import Mathlib

/-!
Shallow embedding of `DistractionFreeReader.pyw`.

The program is a single-threaded tkinter application.  We model the mutable
state of `PDFTimerReaderApp` together with the persisted session file and the
auto-start registration as one record `AppState`, and each method as a pure
function on it.  Clock reads (`time.time()`) become explicit `Int` parameters
(one per call site that reads the clock).  Timestamps and page numbers are
Python arbitrary-precision integers, so they are `Int` here.

External effects are modelled as inputs:
  * `openResult : Option Int` — the outcome of `fitz.open`: `none` when it
    raises, `some n` when it yields a document with `n` pages;
  * `renderOk : Bool` — whether rasterising the current page in `load_page`
    succeeds (the page-index bound check of the document accessor is modelled
    explicitly; indices outside `[0, total_pages)` raise).

The persisted JSON file is modelled by `StateFile`: absent, unreadable (an
`IOError` or `json.JSONDecodeError`, both caught by `load_state`), or a JSON
object whose three known keys are each optionally present (`RawRecord`,
mirroring the fact that `json.load` can return a dict missing keys; dict
truthiness in Python is emptiness, modelled by `RawRecord.truthy`).
An unhandled Python exception escaping a method is modelled by
`Except Unit`; `messagebox` pop-ups are accumulated in `dialogs` (we record
only the dialog title).
-/

/-- A parsed JSON session record: each of the three known keys may be absent. -/
structure RawRecord where
  pdf_path : Option String
  page_num : Option Int
  end_time : Option Int
deriving Repr, DecidableEq

/-- The on-disk session file: missing, unreadable/not-JSON, or a parsed record. -/
inductive StateFile
  | missing
  | corrupt
  | valid (r : RawRecord)
deriving Repr, DecidableEq

/-- Python dict truthiness for the modelled record: non-empty iff some key is present. -/
def RawRecord.truthy (r : RawRecord) : Bool :=
  r.pdf_path.isSome || r.page_num.isSome || r.end_time.isSome

/-- The mutable state of `PDFTimerReaderApp`, the session file and the
auto-start registration.  `pdf_open` is `pdf_document is not None`;
`pdf_path` is `pdf_document.name` (meaningful only while `pdf_open`);
`timer_after_pending` is `timer_after_id is not None`; `dialogs` is the
list of titles of message boxes shown so far. -/
structure AppState where
  pdf_open : Bool
  pdf_path : String
  current_page_num : Int
  total_pages : Int
  timer_running : Bool
  timer_after_pending : Bool
  end_time : Int
  controls_locked : Bool
  stateFile : StateFile
  autostart : Bool
  dialogs : List String
deriving Repr, DecidableEq

/-- The app state right after `__init__` (no document, no timer). -/
def init_app (f : StateFile) : AppState :=
  { pdf_open := false
    pdf_path := ""
    current_page_num := 0
    total_pages := 0
    timer_running := false
    timer_after_pending := false
    end_time := 0
    controls_locked := false
    stateFile := f
    autostart := false
    dialogs := [] }

/-- Model of `save_state`: writes the three-field JSON record and calls `add_to_startup`. -/
def save_state (filepath : String) (page_num : Int) (end_time : Int)
    (app : AppState) : AppState :=
  { app with stateFile := .valid ⟨some filepath, some page_num, some end_time⟩
             autostart := true }

/-- Model of `load_state`: `None` when the file is missing or unreadable/not JSON
(`IOError` and `json.JSONDecodeError` are caught), else the parsed record. -/
def load_state : StateFile → Option RawRecord
  | .missing => none
  | .corrupt => none
  | .valid r => some r

/-- Model of `clear_state`: unlinks the file when present and calls `remove_from_startup`
(which tolerates an already-absent registry value). -/
def clear_state (app : AppState) : AppState :=
  { app with stateFile := .missing, autostart := false }

/-- The command string `add_to_startup` writes under the Run registry key:
`f-string` `"{app_executable}" "{app_script_path}"` with literal quotes. -/
def startup_command (app_executable app_script_path : String) : String :=
  "\"" ++ app_executable ++ "\" \"" ++ app_script_path ++ "\""

/-- Splits a Windows-style command line into its arguments: a double quote
toggles quoting, an unquoted space separates arguments. -/
def splitArgsAux : List Char → Bool → List Char → List String
  | [], _, cur => if cur.isEmpty then [] else [String.mk cur.reverse]
  | c :: rest, inQ, cur =>
    if c = '"' then splitArgsAux rest (!inQ) cur
    else if c = ' ' && !inQ then
      if cur.isEmpty then splitArgsAux rest inQ []
      else String.mk cur.reverse :: splitArgsAux rest inQ []
    else splitArgsAux rest inQ (c :: cur)

/-- The argument vector denoted by a quoted command string. -/
def windowsArgSplit (s : String) : List String :=
  splitArgsAux s.data false []

/-- Model of `reset_viewer`: closes the document and resets the page counters.  It does
not touch the timer fields, the session file or the control lock. -/
def reset_viewer (app : AppState) : AppState :=
  { app with pdf_open := false, current_page_num := 0, total_pages := 0 }

/-- Model of `finish_session`: stops the timer, cancels the pending tick, clears the
persisted state, shows the end-of-session dialog and re-enables controls. -/
def finish_session (app : AppState) : AppState :=
  let a := { app with timer_running := false, timer_after_pending := false }
  let a := clear_state a
  { a with dialogs := a.dialogs ++ ["Times Up"], controls_locked := false }

/-- Model of `load_page`: renders the current page.  The document accessor raises for an
index outside `[0, total_pages)` and rendering may fail (`renderOk`); the
handler shows an error dialog and calls `finish_session`, and the exception
does not propagate.  (PyMuPDF also accepts Python-style negative indices;
no verified behaviour below reaches a negative index, so an index below
zero is modelled as the failure path.) -/
def load_page (renderOk : Bool) (app : AppState) : AppState :=
  if !app.pdf_open then app
  else if renderOk && decide (0 ≤ app.current_page_num)
       && decide (app.current_page_num < app.total_pages) then
    app
  else
    finish_session { app with dialogs := app.dialogs ++ ["Error Rendering Page"] }

/-- Model of `next_page`: when a document is open and not on the last page, advance,
re-render, and overwrite the session file with the new page. -/
def next_page (renderOk : Bool) (app : AppState) : AppState :=
  if app.pdf_open && decide (app.current_page_num < app.total_pages - 1) then
    let a := { app with current_page_num := app.current_page_num + 1 }
    let a := load_page renderOk a
    save_state a.pdf_path a.current_page_num a.end_time a
  else app

/-- Model of `prev_page`: when a document is open and not on the first page, go back,
re-render, and overwrite the session file with the new page. -/
def prev_page (renderOk : Bool) (app : AppState) : AppState :=
  if app.pdf_open && decide (0 < app.current_page_num) then
    let a := { app with current_page_num := app.current_page_num - 1 }
    let a := load_page renderOk a
    save_state a.pdf_path a.current_page_num a.end_time a
  else app

/-- Model of `start_timer`: a fresh session gets deadline `now + duration`; a resumed
session re-reads the state file and takes its stored `end_time` (subscript
access — a record without that key raises `KeyError`), falling back to
`now + duration` when the file is gone or empty. -/
def start_timer (duration : Int) (is_resume : Bool) (now : Int)
    (app : AppState) : Except Unit AppState :=
  if !is_resume then
    .ok { app with end_time := now + duration, timer_running := true }
  else
    match load_state app.stateFile with
    | some r =>
      if r.truthy then
        match r.end_time with
        | some e => .ok { app with end_time := e, timer_running := true }
        | none => .error ()
      else
        .ok { app with end_time := now + duration, timer_running := true }
    | none => .ok { app with end_time := now + duration, timer_running := true }

/-- Model of `update_timer` (one tick at clock `now`): past the deadline it calls
`finish_session`, otherwise it redraws the label and re-schedules itself. -/
def update_timer (now : Int) (app : AppState) : AppState :=
  if !app.timer_running then app
  else if app.end_time - now ≤ 0 then finish_session app
  else { app with timer_after_pending := true }

/-- Model of `start_session filepath duration page_num is_resume`: resets the viewer,
opens the PDF (`openResult`), rejects an empty document, renders page
`page_num`, starts the timer (clock read `nowT`), locks the controls, and for
a fresh session persists the state.  Any exception inside the `try` block
(a failing `fitz.open`, or the `KeyError` out of `start_timer`) is caught:
an error dialog is shown, the viewer reset and the state cleared. -/
def start_session (filepath : String) (duration : Int) (page_num : Int)
    (is_resume : Bool) (nowT : Int) (openResult : Option Int) (renderOk : Bool)
    (app : AppState) : AppState :=
  let a0 := reset_viewer app
  match openResult with
  | none =>
    clear_state (reset_viewer { a0 with dialogs := a0.dialogs ++ ["Error Loading PDF"] })
  | some total =>
    let a1 := { a0 with pdf_open := true, pdf_path := filepath, total_pages := total }
    if total = 0 then
      reset_viewer { a1 with dialogs := a1.dialogs ++ ["Error"] }
    else
      let a2 := { a1 with current_page_num := page_num }
      let a3 := load_page renderOk a2
      match start_timer duration is_resume nowT a3 with
      | .error _ =>
        clear_state (reset_viewer { a3 with dialogs := a3.dialogs ++ ["Error Loading PDF"] })
      | .ok a4 =>
        let a5 := { a4 with controls_locked := true }
        if !is_resume then save_state filepath a5.current_page_num a5.end_time a5
        else a5

/-- Model of `check_for_saved_session` (clock read `now`; `nowT` is the later clock read
inside `start_timer`): a missing or unreadable file, or a falsy record, does
nothing; a record whose stored `end_time` (defaulting to 0) is not in the
future is cleared; otherwise the session is resumed — the subscript accesses
`saved_state[...]` raise `KeyError` when a needed key is absent, and that
exception escapes the method (modelled as `Except.error`). -/
def check_for_saved_session (now nowT : Int) (openResult : Option Int)
    (renderOk : Bool) (app : AppState) : Except Unit AppState :=
  match load_state app.stateFile with
  | none => .ok app
  | some r =>
    if r.truthy then
      if r.end_time.getD 0 - now > 0 then
        match r.pdf_path, r.page_num with
        | some p, some n =>
          .ok (start_session p (r.end_time.getD 0 - now) n true nowT openResult renderOk app)
        | _, _ => .error ()
      else
        .ok (clear_state app)
    else .ok app

/-- The state of `TimerSetupDialog`: the chosen duration and whether the
dialog window has been destroyed (i.e. the interaction finished). -/
structure DialogState where
  total_seconds : Int
  destroyed : Bool
deriving Repr, DecidableEq

/-- The dialog right after construction. -/
def dialog_init : DialogState := ⟨0, false⟩

/-- Model of `on_start`: the entry texts are parsed with `int(...)` (`none` models a
`ValueError`, caught by the handler); negative values raise and are caught
likewise; the total is stored and, when non-positive, a warning is shown and
the dialog stays open; otherwise the dialog is destroyed. -/
def on_start (hours_input minutes_input : Option Int) (d : DialogState) : DialogState :=
  match hours_input, minutes_input with
  | some h, some m =>
    if h < 0 || m < 0 then d
    else
      let t := h * 3600 + m * 60
      if t ≤ 0 then { d with total_seconds := t }
      else { total_seconds := t, destroyed := true }
  | _, _ => d

/-- Model of `on_cancel`: closing the dialog window zeroes the duration. -/
def on_cancel (d : DialogState) : DialogState :=
  { total_seconds := 0, destroyed := true }

/-- Model of `select_pdf`: refused while a session runs; `dialogChoice` is the file
picked (or `none` for a cancelled picker); `dialogSeconds` is the duration the
`TimerSetupDialog` interaction produced.  A non-positive duration aborts the
load with an information dialog. -/
def select_pdf (dialogChoice : Option String) (dialogSeconds : Int) (nowT : Int)
    (openResult : Option Int) (renderOk : Bool) (app : AppState) : AppState :=
  if app.timer_running then { app with dialogs := app.dialogs ++ ["Busy"] }
  else
    match dialogChoice with
    | none => app
    | some filepath =>
      if dialogSeconds > 0 then
        start_session filepath dialogSeconds 0 false nowT openResult renderOk app
      else { app with dialogs := app.dialogs ++ ["Cancelled"] }

/-- A navigation event: one click on Next or Prev, with the outcome of the
rasterisation it triggers. -/
inductive NavOp
  | next (renderOk : Bool)
  | prev (renderOk : Bool)
deriving Repr, DecidableEq

/-- Runs a sequence of navigation events. -/
def run_nav : List NavOp → AppState → AppState
  | [], a => a
  | .next rk :: ops, a => run_nav ops (next_page rk a)
  | .prev rk :: ops, a => run_nav ops (prev_page rk a)

/-- The page-bound invariant: while a document is open the current index is
inside `[0, total_pages - 1]`. -/
def page_in_range (a : AppState) : Prop :=
  a.pdf_open = true → 0 ≤ a.current_page_num ∧ a.current_page_num ≤ a.total_pages - 1

/-- The session file holds a record whose stored page is the displayed page. -/
def state_matches_page (a : AppState) : Prop :=
  ∃ rec : RawRecord, a.stateFile = .valid rec ∧ rec.page_num = some a.current_page_num

/-! Section: Helper lemmas -/

/-- The function `load_page` only redraws or aborts the session: it never moves the page,
closes the document or changes the deadline. -/
theorem load_page_proj (rk : Bool) (a : AppState) :
    (load_page rk a).current_page_num = a.current_page_num ∧
    (load_page rk a).pdf_open = a.pdf_open ∧
    (load_page rk a).total_pages = a.total_pages ∧
    (load_page rk a).end_time = a.end_time ∧
    (load_page rk a).pdf_path = a.pdf_path := by
  unfold load_page finish_session clear_state
  split_ifs <;> simp

/-- Every successful run of `start_timer` turns the timer on and leaves all
non-timer fields alone. -/
theorem start_timer_ok_proj (d : Int) (r : Bool) (now : Int) (a b : AppState)
    (h : start_timer d r now a = .ok b) :
    b.current_page_num = a.current_page_num ∧ b.pdf_open = a.pdf_open ∧
    b.total_pages = a.total_pages ∧ b.stateFile = a.stateFile ∧
    b.pdf_path = a.pdf_path ∧ b.autostart = a.autostart ∧
    b.dialogs = a.dialogs ∧ b.timer_running = true := by
  unfold start_timer at h
  split at h
  · cases h; simp
  · split at h
    · split at h
      · split at h
        · cases h; simp
        · cases h
      · cases h; simp
    · cases h; simp

/-- The function `next_page` preserves the page-bound invariant. -/
theorem next_page_range (rk : Bool) (a : AppState) (h : page_in_range a) :
    page_in_range (next_page rk a) := by
  unfold next_page
  split
  · rename_i hc
    simp only [Bool.and_eq_true, decide_eq_true_eq] at hc
    obtain ⟨hopen, hlt⟩ := hc
    obtain ⟨h0, _⟩ := h hopen
    intro _
    have hp := load_page_proj rk { a with current_page_num := a.current_page_num + 1 }
    simp only [save_state]
    constructor
    · simp only [hp.1]; omega
    · simp only [hp.1, hp.2.2.1]; omega
  · exact h

/-- The function `prev_page` preserves the page-bound invariant. -/
theorem prev_page_range (rk : Bool) (a : AppState) (h : page_in_range a) :
    page_in_range (prev_page rk a) := by
  unfold prev_page
  split
  · rename_i hc
    simp only [Bool.and_eq_true, decide_eq_true_eq] at hc
    obtain ⟨hopen, hlt⟩ := hc
    obtain ⟨_, h1⟩ := h hopen
    intro _
    have hp := load_page_proj rk { a with current_page_num := a.current_page_num - 1 }
    simp only [save_state]
    constructor
    · simp only [hp.1]; omega
    · simp only [hp.1, hp.2.2.1]; omega
  · exact h

/-- Any sequence of navigation events preserves the page-bound invariant. -/
theorem run_nav_range (ops : List NavOp) (a : AppState) (h : page_in_range a) :
    page_in_range (run_nav ops a) := by
  induction ops generalizing a with
  | nil => exact h
  | cons op ops ih =>
    cases op with
    | next rk => exact ih _ (next_page_range rk a h)
    | prev rk => exact ih _ (prev_page_range rk a h)

/-- The function `load_page` never moves the page. -/
theorem load_page_current (rk : Bool) (a : AppState) :
    (load_page rk a).current_page_num = a.current_page_num :=
  (load_page_proj rk a).1

/-- The function `load_page` never closes the document. -/
theorem load_page_open (rk : Bool) (a : AppState) :
    (load_page rk a).pdf_open = a.pdf_open :=
  (load_page_proj rk a).2.1

/-- The function `load_page` never changes the page count. -/
theorem load_page_total (rk : Bool) (a : AppState) :
    (load_page rk a).total_pages = a.total_pages :=
  (load_page_proj rk a).2.2.1

/-- The function `load_page` never changes the deadline. -/
theorem load_page_end (rk : Bool) (a : AppState) :
    (load_page rk a).end_time = a.end_time :=
  (load_page_proj rk a).2.2.2.1

/-- The function `load_page` never changes the document path. -/
theorem load_page_path (rk : Bool) (a : AppState) :
    (load_page rk a).pdf_path = a.pdf_path :=
  (load_page_proj rk a).2.2.2.2

/-- A session started on a document of `total` pages at a page inside
`[0, total - 1]` satisfies the page-bound invariant (every error path closes
the document, making the invariant vacuous). -/
theorem start_session_range (p : String) (d pn : Int) (r : Bool) (nowT total : Int)
    (rk : Bool) (a : AppState) (h0 : 0 ≤ pn) (h1 : pn ≤ total - 1) :
    page_in_range (start_session p d pn r nowT (some total) rk a) := by
  have ht : total ≠ 0 := by omega
  unfold start_session
  dsimp only []
  rw [if_neg ht]
  split
  · intro hopen
    simp [clear_state, reset_viewer] at hopen
  · rename_i b hok
    obtain ⟨hc, ho, htp, _⟩ := start_timer_ok_proj d r nowT _ b hok
    rw [load_page_current] at hc
    rw [load_page_total] at htp
    dsimp only [reset_viewer] at hc htp
    split <;> intro _ <;> refine ⟨?_, ?_⟩ <;> simp [save_state] <;> omega

/-- A fresh session on a non-empty document whose initial page renders: the
viewer shows page `pn`, the timer deadline is `nowT + d`, controls lock, and
the state file is written with exactly the displayed page and that deadline. -/
theorem start_session_new_ok (p : String) (d pn nowT total : Int) (a : AppState)
    (ht : total ≠ 0) (h0 : 0 ≤ pn) (h1 : pn < total) :
    start_session p d pn false nowT (some total) true a =
      { a with pdf_open := true, pdf_path := p, current_page_num := pn,
               total_pages := total, end_time := nowT + d, timer_running := true,
               controls_locked := true,
               stateFile := .valid ⟨some p, some pn, some (nowT + d)⟩,
               autostart := true } := by
  simp [start_session, reset_viewer, load_page, start_timer, save_state, ht, h0, h1]

/-- A resumed session on a non-empty document whose initial page renders, when
the state file still holds a record with an `end_time`: the deadline becomes
exactly the persisted `end_time` and the state file is left untouched. -/
theorem start_session_resume_ok (p : String) (d pn nowT total : Int) (a : AppState)
    (r : RawRecord) (e : Int) (ht : total ≠ 0) (h0 : 0 ≤ pn) (h1 : pn < total)
    (hs : a.stateFile = .valid r) (he : r.end_time = some e) :
    start_session p d pn true nowT (some total) true a =
      { a with pdf_open := true, pdf_path := p, current_page_num := pn,
               total_pages := total, end_time := e, timer_running := true,
               controls_locked := true } := by
  have htr : r.truthy = true := by simp [RawRecord.truthy, he]
  simp [start_session, reset_viewer, load_page, start_timer, load_state, hs, htr, he,
        ht, h0, h1]

/-- A failing `fitz.open` aborts the session: error dialog, viewer reset,
state cleared; the timer fields are untouched. -/
theorem start_session_fail_open (p : String) (d pn : Int) (r : Bool) (nowT : Int)
    (rk : Bool) (a : AppState) :
    start_session p d pn r nowT none rk a =
      { a with pdf_open := false, current_page_num := 0, total_pages := 0,
               stateFile := .missing, autostart := false,
               dialogs := a.dialogs ++ ["Error Loading PDF"] } := by
  simp [start_session, reset_viewer, clear_state]

/-- A document with zero pages is rejected: error dialog, viewer reset, and
`start_session` returns before touching the timer or the state file. -/
theorem start_session_zero_pages (p : String) (d pn : Int) (r : Bool) (nowT : Int)
    (rk : Bool) (a : AppState) :
    start_session p d pn r nowT (some 0) rk a =
      { a with pdf_open := false, pdf_path := p, current_page_num := 0,
               total_pages := 0, dialogs := a.dialogs ++ ["Error"] } := by
  simp [start_session, reset_viewer]

/-- An enabled Next click always overwrites the state file with the new page
and advances the displayed page (render failure only aborts the timer; the
subsequent `save_state` in `next_page` still runs). -/
theorem next_page_state (rk : Bool) (a : AppState) (ho : a.pdf_open = true)
    (hlt : a.current_page_num < a.total_pages - 1) :
    (next_page rk a).stateFile =
      .valid ⟨some a.pdf_path, some (a.current_page_num + 1), some a.end_time⟩ ∧
    (next_page rk a).current_page_num = a.current_page_num + 1 := by
  unfold next_page
  rw [if_pos (by simp [ho, hlt])]
  constructor
  · simp [save_state, load_page_path, load_page_current, load_page_end]
  · simp [save_state, load_page_current]

/-- An enabled Prev click always overwrites the state file with the new page
and moves the displayed page back. -/
theorem prev_page_state (rk : Bool) (a : AppState) (ho : a.pdf_open = true)
    (hgt : 0 < a.current_page_num) :
    (prev_page rk a).stateFile =
      .valid ⟨some a.pdf_path, some (a.current_page_num - 1), some a.end_time⟩ ∧
    (prev_page rk a).current_page_num = a.current_page_num - 1 := by
  unfold prev_page
  rw [if_pos (by simp [ho, hgt])]
  constructor
  · simp [save_state, load_page_path, load_page_current, load_page_end]
  · simp [save_state, load_page_current]

/-- Startup resume: a readable record with all three fields, a future deadline
and a renderable page is resumed via `start_session` with `is_resume = True`. -/
theorem check_resume_ok (now nowT total : Int) (a : AppState) (r : RawRecord)
    (p : String) (n e : Int) (hs : a.stateFile = .valid r)
    (hp : r.pdf_path = some p) (hn : r.page_num = some n) (he : r.end_time = some e)
    (hlt : now < e) (h0 : 0 ≤ n) (h1 : n < total) :
    check_for_saved_session now nowT (some total) true a =
      .ok { a with pdf_open := true, pdf_path := p, current_page_num := n,
                   total_pages := total, end_time := e, timer_running := true,
                   controls_locked := true } := by
  have ht : total ≠ 0 := by omega
  have htr : r.truthy = true := by simp [RawRecord.truthy, he]
  have hgd : r.end_time.getD 0 - now > 0 := by rw [he]; simpa using by omega
  unfold check_for_saved_session
  rw [hs]
  simp only [load_state, htr, if_true, hgd, if_pos hgd, hp, hn]
  rw [start_session_resume_ok p (r.end_time.getD 0 - now) n nowT total a r e ht h0 h1 hs he]
  rw [hs]

/-! Section: C1 -/

/-- C1, as stated, is false on the code: in this session the reader starts a
3-page PDF and clicks Next twice, reaching the final page; the state file is
not deleted — it still holds a record (for the final page). -/
theorem C1_counterexample :
    (next_page true (next_page true
        (start_session "b.pdf" 600 0 false 0 (some 3) true (init_app .missing)))).pdf_open
        = true ∧
    (next_page true (next_page true
        (start_session "b.pdf" 600 0 false 0 (some 3) true (init_app .missing)))).current_page_num
      = (next_page true (next_page true
        (start_session "b.pdf" 600 0 false 0 (some 3) true (init_app .missing)))).total_pages - 1 ∧
    (next_page true (next_page true
        (start_session "b.pdf" 600 0 false 0 (some 3) true (init_app .missing)))).stateFile
      ≠ StateFile.missing := by
  decide

/-- C1 (amended): the persisted record is deleted when the timer expires
(`update_timer` past the deadline, via `finish_session`) or when an error
aborts the session (shown for a failing `fitz.open`); finishing the document
does not delete it — a Next click, in particular one reaching the final page,
overwrites the record with the new page instead. -/
theorem C1_deletion_cases :
    (∀ (now : Int) (a : AppState), a.timer_running = true → a.end_time ≤ now →
      (update_timer now a).stateFile = .missing) ∧
    (∀ a : AppState, (finish_session a).stateFile = .missing) ∧
    (∀ (p : String) (d pn : Int) (r : Bool) (nowT : Int) (rk : Bool) (a : AppState),
      (start_session p d pn r nowT none rk a).stateFile = .missing) ∧
    (∀ (rk : Bool) (a : AppState), a.pdf_open = true →
      a.current_page_num < a.total_pages - 1 →
      (next_page rk a).stateFile =
        .valid ⟨some a.pdf_path, some (a.current_page_num + 1), some a.end_time⟩) := by
  refine ⟨?_, ?_, ?_, ?_⟩
  · intro now a h1 h2
    have hle : a.end_time - now ≤ 0 := by omega
    simp [update_timer, h1, hle, finish_session, clear_state]
  · intro a
    simp [finish_session, clear_state]
  · intro p d pn r nowT rk a
    rw [start_session_fail_open]
  · intro rk a ho hlt
    exact (next_page_state rk a ho hlt).1

/-- Witness for `C1_deletion_cases` at concrete inputs. -/
theorem C1_deletion_cases_witness :
    (update_timer 700
        { init_app .missing with timer_running := true, end_time := 600 }).stateFile
      = StateFile.missing ∧
    (next_page true
        { init_app .missing with pdf_open := true, pdf_path := "b.pdf",
                                 total_pages := 3, end_time := 600 }).stateFile
      = StateFile.valid ⟨some "b.pdf", some 1, some 600⟩ :=
  ⟨C1_deletion_cases.1 700 _ rfl (by decide),
   C1_deletion_cases.2.2.2 true _ rfl (by decide)⟩

/-! Section: C2 -/

/-- C2, as stated, is false on the code: `start_session` does not clamp the
initial `page_num`, so resuming a 3-page document at saved page 5 leaves the
document open with the current index 5, outside `[0, total_pages - 1]`
(rendering fails and aborts the timer, but the index stays 5). -/
theorem C2_counterexample :
    (start_session "b.pdf" 600 5 false 0 (some 3) true (init_app .missing)).pdf_open
      = true ∧
    (start_session "b.pdf" 600 5 false 0 (some 3) true (init_app .missing)).total_pages
      = 3 ∧
    (start_session "b.pdf" 600 5 false 0 (some 3) true (init_app .missing)).current_page_num
      = 5 ∧
    ¬((start_session "b.pdf" 600 5 false 0 (some 3) true (init_app .missing)).current_page_num
        ≤ (start_session "b.pdf" 600 5 false 0 (some 3) true (init_app .missing)).total_pages - 1) := by
  decide

/-- C2 (amended): for every session started or resumed at an initial
`page_num` inside `[0, total_pages - 1]`, every sequence of Next/Prev clicks
(each with either render outcome) keeps the current page index inside
`[0, total_pages - 1]` while the document is open. -/
theorem C2_page_bound (ops : List NavOp) (p : String) (d pn : Int) (r : Bool)
    (nowT total : Int) (rk : Bool) (a : AppState)
    (h0 : 0 ≤ pn) (h1 : pn ≤ total - 1) :
    page_in_range (run_nav ops (start_session p d pn r nowT (some total) rk a)) :=
  run_nav_range ops _ (start_session_range p d pn r nowT total rk a h0 h1)

/-- Witness for `C2_page_bound` at concrete inputs. -/
theorem C2_page_bound_witness :
    page_in_range (run_nav [NavOp.next true, NavOp.next true, NavOp.prev false]
      (start_session "b.pdf" 600 0 false 0 (some 3) true (init_app .missing))) :=
  C2_page_bound [NavOp.next true, NavOp.next true, NavOp.prev false]
    "b.pdf" 600 0 false 0 3 true (init_app .missing) (by decide) (by decide)

/-! Section: C3 -/

/-- C3: after every operation that changes the displayed page during an
active session — starting a fresh session, an enabled Next click, an enabled
Prev click, and resuming a saved session — the `page_num` stored in the state
file equals the page currently displayed; page turns overwrite the record. -/
theorem C3_state_matches_displayed :
    (∀ (p : String) (d pn nowT total : Int) (a : AppState),
      total ≠ 0 → 0 ≤ pn → pn < total →
      state_matches_page (start_session p d pn false nowT (some total) true a)) ∧
    (∀ (rk : Bool) (a : AppState), a.pdf_open = true →
      a.current_page_num < a.total_pages - 1 → state_matches_page (next_page rk a)) ∧
    (∀ (rk : Bool) (a : AppState), a.pdf_open = true →
      0 < a.current_page_num → state_matches_page (prev_page rk a)) ∧
    (∀ (now nowT total : Int) (a : AppState) (r : RawRecord) (p : String) (n e : Int),
      a.stateFile = .valid r → r.pdf_path = some p → r.page_num = some n →
      r.end_time = some e → now < e → 0 ≤ n → n < total →
      ∃ a2, check_for_saved_session now nowT (some total) true a = .ok a2 ∧
        state_matches_page a2) := by
  refine ⟨?_, ?_, ?_, ?_⟩
  · intro p d pn nowT total a ht h0 h1
    rw [start_session_new_ok p d pn nowT total a ht h0 h1]
    exact ⟨⟨some p, some pn, some (nowT + d)⟩, rfl, rfl⟩
  · intro rk a ho hlt
    obtain ⟨h1, h2⟩ := next_page_state rk a ho hlt
    exact ⟨_, h1, by rw [h2]⟩
  · intro rk a ho hgt
    obtain ⟨h1, h2⟩ := prev_page_state rk a ho hgt
    exact ⟨_, h1, by rw [h2]⟩
  · intro now nowT total a r p n e hs hp hn he hlt h0 h1
    refine ⟨_, check_resume_ok now nowT total a r p n e hs hp hn he hlt h0 h1, ?_⟩
    exact ⟨r, by rw [hs], by rw [hn]⟩

/-- Witness for `C3_state_matches_displayed` at concrete inputs. -/
theorem C3_state_matches_displayed_witness :
    state_matches_page (start_session "b.pdf" 600 1 false 0 (some 3) true
      (init_app .missing)) ∧
    state_matches_page (next_page true
      { init_app .missing with pdf_open := true, pdf_path := "b.pdf",
                               total_pages := 3, end_time := 600 }) ∧
    state_matches_page (prev_page true
      { init_app .missing with pdf_open := true, pdf_path := "b.pdf",
                               current_page_num := 2, total_pages := 3,
                               end_time := 600 }) ∧
    ∃ a2, check_for_saved_session 10 12 (some 3) true
        (init_app (.valid ⟨some "b.pdf", some 1, some 40⟩)) = .ok a2 ∧
      state_matches_page a2 :=
  ⟨C3_state_matches_displayed.1 "b.pdf" 600 1 0 3 _ (by decide) (by decide) (by decide),
   C3_state_matches_displayed.2.1 true _ rfl (by decide),
   C3_state_matches_displayed.2.2.1 true _ rfl (by decide),
   C3_state_matches_displayed.2.2.2 10 12 3 _ ⟨some "b.pdf", some 1, some 40⟩
     "b.pdf" 1 40 rfl rfl rfl rfl (by decide) (by decide) (by decide)⟩

/-! Section: C4 -/

/-- C4: a saved record whose `end_time` is at or before the startup clock is
not resumed: `check_for_saved_session` only clears the persisted state,
leaving the timer (and the rest of the app state) untouched. -/
theorem C4_expired_session_cleared (now nowT : Int) (o : Option Int) (rk : Bool)
    (a : AppState) (r : RawRecord) (e : Int)
    (hs : a.stateFile = .valid r) (he : r.end_time = some e) (hle : e ≤ now) :
    check_for_saved_session now nowT o rk a = .ok (clear_state a) ∧
    (clear_state a).stateFile = .missing ∧
    (clear_state a).timer_running = a.timer_running ∧
    (clear_state a).pdf_open = a.pdf_open ∧
    (clear_state a).dialogs = a.dialogs := by
  have htr : r.truthy = true := by simp [RawRecord.truthy, he]
  have hng : ¬(r.end_time.getD 0 - now > 0) := by rw [he]; simp; omega
  refine ⟨?_, rfl, rfl, rfl, rfl⟩
  unfold check_for_saved_session
  rw [hs]
  simp only [load_state, htr, if_true, if_neg hng]

/-- Witness for `C4_expired_session_cleared` at concrete inputs. -/
theorem C4_expired_session_cleared_witness :
    check_for_saved_session 50 50 (some 3) true
        (init_app (.valid ⟨some "b.pdf", some 1, some 40⟩))
      = .ok (clear_state (init_app (.valid ⟨some "b.pdf", some 1, some 40⟩))) ∧
    (clear_state (init_app (.valid ⟨some "b.pdf", some 1, some 40⟩))).stateFile
      = StateFile.missing :=
  ⟨(C4_expired_session_cleared 50 50 (some 3) true _ ⟨some "b.pdf", some 1, some 40⟩
      40 rfl rfl (by decide)).1,
   (C4_expired_session_cleared 50 50 (some 3) true _ ⟨some "b.pdf", some 1, some 40⟩
      40 rfl rfl (by decide)).2.1⟩

/-! Section: C5 -/

/-- C5: a PDF that opens with zero pages is rejected by `start_session`: an
error dialog is shown, the method returns without starting the timer (timer
fields unchanged) and the viewer is left in the reset no-document state; the
state file is also untouched. -/
theorem C5_zero_pages_rejected (p : String) (d pn : Int) (r : Bool) (nowT : Int)
    (rk : Bool) (a : AppState) :
    (start_session p d pn r nowT (some 0) rk a).pdf_open = false ∧
    (start_session p d pn r nowT (some 0) rk a).total_pages = 0 ∧
    (start_session p d pn r nowT (some 0) rk a).current_page_num = 0 ∧
    (start_session p d pn r nowT (some 0) rk a).timer_running = a.timer_running ∧
    (start_session p d pn r nowT (some 0) rk a).end_time = a.end_time ∧
    (start_session p d pn r nowT (some 0) rk a).timer_after_pending = a.timer_after_pending ∧
    (start_session p d pn r nowT (some 0) rk a).controls_locked = a.controls_locked ∧
    (start_session p d pn r nowT (some 0) rk a).stateFile = a.stateFile ∧
    (start_session p d pn r nowT (some 0) rk a).dialogs = a.dialogs ++ ["Error"] := by
  rw [start_session_zero_pages]
  exact ⟨rfl, rfl, rfl, rfl, rfl, rfl, rfl, rfl, rfl⟩

/-! Section: C6 -/

/-- C6: session end clears the state exactly once and double-fire is
harmless: a second `finish_session` changes nothing besides showing the
end-of-session dialog again, the state record is gone and the timer stopped
after the first call, and `clear_state` on an already-missing state file is a
no-op beyond the first `clear_state`. -/
theorem C6_finish_idempotent (a : AppState) :
    (finish_session a).stateFile = .missing ∧
    (finish_session a).timer_running = false ∧
    (finish_session a).timer_after_pending = false ∧
    (finish_session (finish_session a)).stateFile = (finish_session a).stateFile ∧
    (finish_session (finish_session a)).timer_running = (finish_session a).timer_running ∧
    (finish_session (finish_session a)).timer_after_pending
      = (finish_session a).timer_after_pending ∧
    (finish_session (finish_session a)).autostart = (finish_session a).autostart ∧
    (finish_session (finish_session a)).controls_locked = (finish_session a).controls_locked ∧
    (finish_session (finish_session a)).pdf_open = (finish_session a).pdf_open ∧
    (finish_session (finish_session a)).current_page_num
      = (finish_session a).current_page_num ∧
    (finish_session (finish_session a)).total_pages = (finish_session a).total_pages ∧
    (finish_session (finish_session a)).end_time = (finish_session a).end_time ∧
    (finish_session (finish_session a)).pdf_path = (finish_session a).pdf_path ∧
    (∀ b : AppState, clear_state (clear_state b) = clear_state b) := by
  refine ⟨rfl, rfl, rfl, rfl, rfl, rfl, rfl, rfl, rfl, rfl, rfl, rfl, rfl, fun b => rfl⟩

/-! Section: C7 -/

/-- C7, as stated, is false on the code: a state file holding the valid-JSON
record with only an `end_time` in the future (content modelled as
`{end_time: 100}` at startup clock 0) is a "not usable" session record, yet
`check_for_saved_session` raises an uncaught `KeyError` on
`saved_state[pdf_path]` instead of silently ignoring it. -/
theorem C7_counterexample :
    check_for_saved_session 0 0 (some 3) true
      (init_app (.valid ⟨none, none, some 100⟩)) = .error () := by
  rfl

/-- C7 (amended): a state file that is missing, or whose contents are not
readable as JSON, is treated as no session at startup: the app state is
returned unchanged, nothing is resumed and no exception or dialog occurs. -/
theorem C7_missing_or_corrupt_ignored (now nowT : Int) (o : Option Int) (rk : Bool)
    (a : AppState) (h : a.stateFile = .missing ∨ a.stateFile = .corrupt) :
    check_for_saved_session now nowT o rk a = .ok a := by
  rcases h with h | h <;>
    · unfold check_for_saved_session
      rw [h]
      rfl

/-- Witness for `C7_missing_or_corrupt_ignored` at concrete inputs. -/
theorem C7_missing_or_corrupt_ignored_witness :
    check_for_saved_session 0 0 (some 3) true (init_app .corrupt)
      = .ok (init_app .corrupt) :=
  C7_missing_or_corrupt_ignored 0 0 (some 3) true (init_app .corrupt) (Or.inr rfl)

/-! Section: C9 -/

/-- C9: resuming a saved session (`is_resume = True`, state file still
present) sets the running deadline to exactly the persisted `end_time` — for
every later clock value `nowT` read inside `start_timer`, i.e. not to
`nowT + remaining`. -/
theorem C9_resume_keeps_deadline (now nowT total : Int) (a : AppState)
    (r : RawRecord) (p : String) (n e : Int) (hs : a.stateFile = .valid r)
    (hp : r.pdf_path = some p) (hn : r.page_num = some n) (he : r.end_time = some e)
    (hlt : now < e) (h0 : 0 ≤ n) (h1 : n < total) :
    ∃ a2, check_for_saved_session now nowT (some total) true a = .ok a2 ∧
      a2.end_time = e ∧ a2.timer_running = true ∧ a2.stateFile = .valid r :=
  ⟨_, check_resume_ok now nowT total a r p n e hs hp hn he hlt h0 h1,
   rfl, rfl, hs⟩

/-- Witness for `C9_resume_keeps_deadline` at concrete inputs (note the
second clock read 12 differs from the startup clock 10; the deadline is
still the persisted 40, not 12 + remaining 30). -/
theorem C9_resume_keeps_deadline_witness :
    ∃ a2, check_for_saved_session 10 12 (some 3) true
        (init_app (.valid ⟨some "b.pdf", some 1, some 40⟩)) = .ok a2 ∧
      a2.end_time = 40 ∧ a2.timer_running = true ∧
      a2.stateFile = .valid ⟨some "b.pdf", some 1, some 40⟩ :=
  C9_resume_keeps_deadline 10 12 3 _ ⟨some "b.pdf", some 1, some 40⟩ "b.pdf" 1 40
    rfl rfl rfl rfl (by decide) (by decide) (by decide)

/-! Section: C10 -/

/-- C10: the timer dialog accepts only strictly positive totals.  `on_start`
finishes the dialog (destroys it, enabling a session) exactly when both
entries parse as integers, neither is negative and `h*3600 + m*60 > 0`, and
then `total_seconds` is that positive total; otherwise the dialog stays open
with `total_seconds` still 0.  Cancelling yields `total_seconds = 0`, and
`select_pdf` with a non-positive duration shows the Cancelled dialog and
does not start a session. -/
theorem C10_dialog_validation :
    (∀ (h m : Int), 0 ≤ h → 0 ≤ m → 0 < h * 3600 + m * 60 →
      on_start (some h) (some m) dialog_init
        = ⟨h * 3600 + m * 60, true⟩) ∧
    (∀ (hi mi : Option Int),
      (∀ (h m : Int), hi = some h → mi = some m → (h < 0 ∨ m < 0 ∨ h * 3600 + m * 60 ≤ 0)) →
      (on_start hi mi dialog_init).total_seconds = 0 ∧
      (on_start hi mi dialog_init).destroyed = false) ∧
    (∀ d : DialogState, (on_cancel d).total_seconds = 0) ∧
    (∀ (f : String) (nowT : Int) (o : Option Int) (rk : Bool) (a : AppState),
      a.timer_running = false →
      select_pdf (some f) 0 nowT o rk a = { a with dialogs := a.dialogs ++ ["Cancelled"] }) := by
  refine ⟨?_, ?_, fun d => rfl, ?_⟩
  · intro h m hh hm hpos
    have h1 : ¬(h < 0 || m < 0) = true := by simp; omega
    have h2 : ¬(h * 3600 + m * 60 ≤ 0) := by omega
    simp [on_start, h1, h2]
  · intro hi mi hrej
    match hi, mi with
    | none, _ => exact ⟨rfl, rfl⟩
    | some h, none => exact ⟨rfl, rfl⟩
    | some h, some m =>
      have hd := hrej h m rfl rfl
      by_cases hneg : (h < 0 || m < 0) = true
      · simp [on_start, hneg, dialog_init]
      · have hn2 : 0 ≤ h ∧ 0 ≤ m := by
          simp only [Bool.or_eq_true, decide_eq_true_eq, not_or, not_lt] at hneg
          exact hneg
        have hle : h * 3600 + m * 60 ≤ 0 := by
          rcases hd with h2 | h2 | h2 <;> omega
        have hz : h * 3600 + m * 60 = 0 := by
          obtain ⟨hx, hy⟩ := hn2
          omega
        simp [on_start, hneg, hle, hz, dialog_init]
  · intro f nowT o rk a ha
    simp [select_pdf, ha]

/-- Witness for `C10_dialog_validation` at concrete inputs. -/
theorem C10_dialog_validation_witness :
    on_start (some 0) (some 30) dialog_init = ⟨1800, true⟩ ∧
    (on_start (some 0) (some 0) dialog_init).total_seconds = 0 ∧
    (on_start none (some 5) dialog_init).destroyed = false ∧
    select_pdf (some "b.pdf") 0 0 (some 3) true (init_app .missing)
      = { init_app .missing with dialogs := ["Cancelled"] } := by
  refine ⟨?_, ?_, ?_, ?_⟩
  · have := C10_dialog_validation.1 0 30 (by decide) (by decide) (by decide)
    simpa using this
  · exact (C10_dialog_validation.2.1 (some 0) (some 0)
      (fun h m hh hm => by cases hh; cases hm; right; right; decide)).1
  · exact (C10_dialog_validation.2.1 none (some 5) (fun h m hh hm => by cases hh)).2
  · have := C10_dialog_validation.2.2.2 "b.pdf" 0 (some 3) true (init_app .missing) rfl
    simpa [init_app] using this

/-! Section: C8 -/

/-- Inside a quoted region, quote-free characters are accumulated verbatim. -/
theorem splitArgsAux_no_quote (cs : List Char) (rest : List Char) (cur : List Char)
    (h : ∀ c ∈ cs, c ≠ '"') :
    splitArgsAux (cs ++ rest) true cur = splitArgsAux rest true (cs.reverse ++ cur) := by
  induction cs generalizing cur with
  | nil => simp
  | cons c cs ih =>
    have hc : c ≠ '"' := h c (List.mem_cons_self c cs)
    have hsp : (decide (c = ' ') && !true) = false := by simp
    rw [List.cons_append]
    rw [splitArgsAux]
    rw [if_neg hc]
    rw [hsp]
    simp only [Bool.false_eq_true, if_false]
    rw [ih _ (fun x hx => h x (List.mem_cons_of_mem _ hx))]
    simp

/-- Opening-quote step of the splitter. -/
theorem splitArgsAux_quote (l : List Char) (inQ : Bool) (cur : List Char) :
    splitArgsAux ('"' :: l) inQ cur = splitArgsAux l (!inQ) cur := by
  rw [splitArgsAux]
  rw [if_pos rfl]

/-- Unquoted-space step of the splitter with a non-empty current token. -/
theorem splitArgsAux_space (l : List Char) (cur : List Char) (hcur : cur ≠ []) :
    splitArgsAux (' ' :: l) false cur
      = String.mk cur.reverse :: splitArgsAux l false [] := by
  rw [splitArgsAux]
  rw [if_neg (by decide)]
  simp [List.isEmpty_iff, hcur]

/-- C8, as stated, is false on the code: for the executable
`C:\Python311\pythonw.exe` and the script `C:\Apps\DistractionFreeReader.pyw`,
the registered Run command splits into two arguments — the executable path
followed by the script path — not into the executable path alone. -/
theorem C8_counterexample :
    windowsArgSplit (startup_command "C:\\Python311\\pythonw.exe"
        "C:\\Apps\\DistractionFreeReader.pyw")
      = ["C:\\Python311\\pythonw.exe", "C:\\Apps\\DistractionFreeReader.pyw"] ∧
    windowsArgSplit (startup_command "C:\\Python311\\pythonw.exe"
        "C:\\Apps\\DistractionFreeReader.pyw")
      ≠ ["C:\\Python311\\pythonw.exe"] := by
  constructor
  · rfl
  · decide

/-- C8 (amended): for every quote-free, non-empty executable path and script
path, the command `add_to_startup` registers consists of the executable path
followed by exactly one additional command-line argument, the script path. -/
theorem C8_command_exe_and_script (exe script : String)
    (hexe : exe ≠ "") (hscript : script ≠ "")
    (hq1 : ∀ c ∈ exe.data, c ≠ '"') (hq2 : ∀ c ∈ script.data, c ≠ '"') :
    windowsArgSplit (startup_command exe script) = [exe, script] := by
  have hde : exe.data ≠ [] := by
    intro hnil
    exact hexe (String.ext hnil)
  have hds : script.data ≠ [] := by
    intro hnil
    exact hscript (String.ext hnil)
  have hdata : (startup_command exe script).data
      = '"' :: (exe.data ++ ('"' :: ' ' :: '"' :: (script.data ++ ['"']))) := by
    simp [startup_command, String.data_append]
  unfold windowsArgSplit
  rw [hdata]
  rw [splitArgsAux_quote]
  rw [Bool.not_false]
  rw [splitArgsAux_no_quote exe.data _ _ hq1]
  rw [List.append_nil]
  rw [splitArgsAux_quote]
  rw [Bool.not_true]
  rw [splitArgsAux_space _ _ (by simpa using hde)]
  rw [splitArgsAux_quote]
  rw [Bool.not_false]
  rw [splitArgsAux_no_quote script.data _ _ hq2]
  rw [List.append_nil]
  rw [splitArgsAux_quote]
  rw [Bool.not_true]
  rw [splitArgsAux]
  simp [List.isEmpty_iff, hds]

/-- Witness for `C8_command_exe_and_script` at concrete inputs. -/
theorem C8_command_exe_and_script_witness :
    windowsArgSplit (startup_command "C:\\py\\pythonw.exe" "C:\\r\\run.pyw")
      = ["C:\\py\\pythonw.exe", "C:\\r\\run.pyw"] :=
  C8_command_exe_and_script "C:\\py\\pythonw.exe" "C:\\r\\run.pyw"
    (by decide) (by decide) (by decide) (by decide)
